import Mathlib

/-!
Shallow embedding of `src/object_controller/src/object_controller.cpp`
(SIGVerseObjectController): a ROS node that

* registers a recurring 0.05 s timer per doll name (`createTimer`, lines
  208-211), whose callback (`sendPositonCallback`, lines 240-265) publishes a
  transform at `x = cos(pos_val)`, `y = sin(pos_val)` with
  `pos_val = start_time + speed * now`, where `start_time` was captured by
  `ros::Time::now().toSec()` at `createTimer` call time (argument of
  `boost::bind`, evaluated once at registration);
* polls the keyboard (`run`, lines 104-160): when `canReceive` reports data,
  `read` fills a 1024-byte buffer, a negative result is fatal
  (`exit(EXIT_FAILURE)`, line 112), and otherwise `c = buf[ret-1]` (line 115)
  is fed to the `switch` of lines 117-154;
* restores the cooked terminal mode only after the `while (ros::ok())` loop
  exits (line 164) and then returns `EXIT_SUCCESS` (line 167).

C++ `double`/`float` values are modelled as real numbers; bytes as `Char`;
`std::map<std::string, ros::Timer>` as an association list whose
`operator[]` assignment replaces the binding of an existing key.
-/

/-- Clock values (`ros::Time::now().toSec()`), modelled as real numbers. -/
abbrev Time := ℝ

/-- `geometry_msgs::Vector3` (named Vec3 here to avoid clashing with Mathlib). -/
structure Vec3 where
  x : ℝ
  y : ℝ
  z : ℝ

/-- `geometry_msgs::Quaternion`. -/
structure Quaternion4 where
  x : ℝ
  y : ℝ
  z : ℝ
  w : ℝ

/-- `geometry_msgs::TransformStamped`, restricted to the fields the node
sets.  The `rotation` field is an `Option` because both publishing paths of
the source leave it unset (lines 234 and 262 are commented out). -/
structure TransformStamped where
  frame_id : String
  child_frame_id : String
  translation : Vec3
  rotation : Option Quaternion4

/-- One observable publish of the node: either a transform on
`/goods/transform` or a string message on `/goods/message/from_ros`. -/
inductive Output where
  | transform (t : TransformStamped)
  | message (s : String)

/-- `tf::createQuaternionFromRPY` (the `setRPY` formula of the tf library).
The node computes this quaternion (lines 228, 256) but never attaches it to
the published message. -/
noncomputable def createQuaternionFromRPY (roll pitch yaw : ℝ) : Quaternion4 :=
  let sr := Real.sin (roll / 2)
  let cr := Real.cos (roll / 2)
  let sp := Real.sin (pitch / 2)
  let cp := Real.cos (pitch / 2)
  let sy := Real.sin (yaw / 2)
  let cy := Real.cos (yaw / 2)
  { x := sr * cp * cy - cr * sp * sy
    y := cr * sp * cy + sr * cp * sy
    z := cr * cp * sy - sr * sp * cy
    w := cr * cp * cy + sr * sp * sy }

/-- The phase argument of line 247:
`double pos_val = start_time + speed * ros::Time::now().toSec();`. -/
noncomputable def posVal (start_time : Time) (speed : ℝ) (now : Time) : ℝ :=
  start_time + speed * now

/-- `SIGVerseObjectController::sendPositon` (lines 214-237): the transform
published for a table move.  Line 234, which would set the rotation, is
commented out in the source, so `rotation := none`. -/
def sendPositon (name : String) (posx posy : ℝ) : TransformStamped :=
  { frame_id := "map"
    child_frame_id := name
    translation := { x := posx, y := posy, z := 0 }
    rotation := none }

/-- `SIGVerseObjectController::sendPositonCallback` (lines 240-265): the
transform published on a timer firing at clock value `now`.  Line 256
computes `createQuaternionFromRPY 0 0 pos_val`, but line 262, which would
attach it, is commented out, so `rotation := none`. -/
noncomputable def sendPositonCallback (name : String) (start_time : Time)
    (speed : ℝ) (now : Time) : TransformStamped :=
  { frame_id := "map"
    child_frame_id := name
    translation :=
      { x := Real.cos (posVal start_time speed now)
        y := Real.sin (posVal start_time speed now)
        z := 0 }
    rotation := none }

/-- `SIGVerseObjectController::sendGraspedMessage` (lines 192-198). -/
def sendGraspedMessage (name : String) : Output :=
  .message ("grasped," ++ name)

/-- `SIGVerseObjectController::sendReleasedMessage` (lines 200-206). -/
def sendReleasedMessage : Output :=
  .message "released"

/-- The data bound into one `ros::Timer` by `createTimer` (line 210): the
period `ros::Duration(0.05)` and the `boost::bind` arguments
`start_time = ros::Time::now().toSec()` (evaluated at the `createTimer`
call) and `speed`. -/
structure TimerRec where
  period : ℝ
  start_time : Time
  speed : ℝ

/-- The fixed timer period `ros::Duration(0.05)` of line 210. -/
def timerPeriod : ℝ := 0.05

/-- `std::map` indexed assignment `m[k] = v`: replaces the value of an
existing key, otherwise appends a fresh binding (keys stay unique). -/
def mapInsert (m : List (String × TimerRec)) (k : String) (v : TimerRec) :
    List (String × TimerRec) :=
  match m with
  | [] => [(k, v)]
  | (k', v') :: rest =>
      if k' = k then (k, v) :: rest else (k', v') :: mapInsert rest k v

/-- `std::map` lookup by key. -/
def mapLookup (m : List (String × TimerRec)) (k : String) : Option TimerRec :=
  match m with
  | [] => none
  | (k', v') :: rest => if k' = k then some v' else mapLookup rest k

/-- Number of bindings of key `k` in the map. -/
def countKey (m : List (String × TimerRec)) (k : String) : Nat :=
  m.countP (fun p => p.1 == k)

/-- The mutable state of the node: the timer map `pub_timer_map_` (line 45)
and whether the terminal is still in the raw mode installed by lines 76-85
(`tcsetattr(kfd, TCSANOW, &raw)`). -/
structure CtrlState where
  timers : List (String × TimerRec)
  termRaw : Bool

/-- `SIGVerseObjectController::createTimer` (lines 208-211):
`pub_timer_map_[name] = node_handle_.createTimer(ros::Duration(0.05),
boost::bind(..., name, ros::Time::now().toSec(), speed))`.  Assigning into
the map destroys a previously stored `ros::Timer` for the same name
(replace semantics of `operator[]`). -/
def createTimer (s : CtrlState) (now : Time) (name : String) (speed : ℝ) :
    CtrlState :=
  { s with timers := mapInsert s.timers name ⟨timerPeriod, now, speed⟩ }

/-- State right after the terminal is put in raw mode (line 85), before the
three `createTimer` calls of lines 100-102: empty timer map, raw terminal. -/
def initState : CtrlState :=
  { timers := [], termRaw := true }

/-- State after the bootstrap `createTimer` calls of lines 100-102, with all
three registrations modelled at clock value 0. -/
noncomputable def bootState : CtrlState :=
  createTimer (createTimer (createTimer initState 0 "bear_doll" 0.5)
      0 "dog_doll" 0.6)
    0 "rabbit_doll" 0.7

/-- The key constants of lines 16-22 (`static const char KEYCODE_*`). -/
def KEYCODE_1 : Char := Char.ofNat 0x31
def KEYCODE_2 : Char := Char.ofNat 0x32
def KEYCODE_3 : Char := Char.ofNat 0x33
def KEYCODE_G : Char := Char.ofNat 0x67
def KEYCODE_H : Char := Char.ofNat 0x68
def KEYCODE_I : Char := Char.ofNat 0x69
def KEYCODE_R : Char := Char.ofNat 0x72

/-- The `switch(c)` of lines 117-154: the publishes produced for one input
byte.  Bytes outside the seven cases fall through the switch and publish
nothing.  No case touches `pub_timer_map_`. -/
def dispatch (c : Char) : List Output :=
  if c = KEYCODE_1 then [.transform (sendPositon "table" 0.0 0.0)]
  else if c = KEYCODE_2 then [.transform (sendPositon "table" 0.5 0.0)]
  else if c = KEYCODE_3 then [.transform (sendPositon "table" 0.0 0.5)]
  else if c = KEYCODE_G then [sendGraspedMessage "bear_doll"]
  else if c = KEYCODE_H then [sendGraspedMessage "dog_doll"]
  else if c = KEYCODE_I then [sendGraspedMessage "rabbit_doll"]
  else if c = KEYCODE_R then [sendReleasedMessage]
  else []

/-- One `ros::spinOnce()` tick at clock value `now`: every registered timer
fires its bound `sendPositonCallback` once.  (The real scheduler fires each
timer when its 0.05 s period has elapsed; we model a tick on which every
registered timer is due, which is the granularity the claims speak about.) -/
noncomputable def spinOnce (timers : List (String × TimerRec)) (now : Time) :
    List Output :=
  timers.map (fun p =>
    .transform (sendPositonCallback p.1 p.2.start_time p.2.speed now))

/-- The environment's behaviour on one iteration of the `while (ros::ok())`
loop (lines 104-160):
* `shutdown`  — `ros::ok()` is false at the loop head (the SIGINT handler of
  lines 48-51 ran `ros::shutdown()`);
* `noInput`   — `canReceive(kfd)` returns 0;
* `readError` — `canReceive` reported data and `read` returned a negative
  value;
* `input bs`  — `canReceive` reported data and `read` placed the bytes `bs`
  into `buf`, returning `ret = bs.length` (POSIX allows `ret = 0`, e.g. at
  end of file). -/
inductive LoopEvent where
  | shutdown
  | noInput
  | readError
  | input (bs : List Char)

/-- Exit status of the process. -/
inductive ExitStatus where
  | success
  | failure
  deriving DecidableEq

/-- Result of one loop iteration: continue looping, leave the process (with
the state at exit), or hit undefined behaviour (the out-of-bounds buffer
access `buf[-1]` when `read` returns 0). -/
inductive StepResult where
  | continues (s : CtrlState) (out : List Output)
  | exits (status : ExitStatus) (s : CtrlState) (out : List Output)
  | stuck

/-- One iteration of the `run` loop, lines 104-160, at clock value `now`:
if `ros::ok()` fails, the loop exits, line 164 restores the cooked terminal
mode and line 167 returns `EXIT_SUCCESS`; a negative `read` runs
`exit(EXIT_FAILURE)` at line 112 immediately (no terminal restore, no
publishes); otherwise `c = buf[ret-1]` (line 115) — the last byte read when
`ret >= 1`, an out-of-bounds access when `ret = 0` — is dispatched and then
`ros::spinOnce()` fires the due timers. -/
noncomputable def loopIter (s : CtrlState) (now : Time) (ev : LoopEvent) :
    StepResult :=
  match ev with
  | .shutdown => .exits .success { s with termRaw := false } []
  | .noInput => .continues s (spinOnce s.timers now)
  | .readError => .exits .failure s []
  | .input bs =>
      match bs.getLast? with
      | some c => .continues s (dispatch c ++ spinOnce s.timers now)
      | none => .stuck

/-- Outcome of running the loop over a finite schedule of events. -/
inductive RunOutcome where
  | running (s : CtrlState) (out : List Output)
  | exited (status : ExitStatus) (s : CtrlState) (out : List Output)
  | crashed

/-- Run the `while (ros::ok())` loop over a schedule of (clock value, event)
pairs.  Once an iteration exits the process, the remaining schedule is
ignored: no further iterations, publishes, or state changes happen. -/
noncomputable def runLoop (s : CtrlState) :
    List (Time × LoopEvent) → RunOutcome
  | [] => .running s []
  | (now, ev) :: rest =>
      match loopIter s now ev with
      | .continues s' out =>
          match runLoop s' rest with
          | .running s'' out' => .running s'' (out ++ out')
          | .exited st s'' out' => .exited st s'' (out ++ out')
          | .crashed => .crashed
      | .exits st s' out => .exited st s' out
      | .stuck => .crashed

/-- The timer map visible in a run outcome (`none` once undefined behaviour
was reached). -/
def runStateTimers : RunOutcome → Option (List (String × TimerRec))
  | .running s _ => some s.timers
  | .exited _ s _ => some s.timers
  | .crashed => none

/-- The raw-mode flag visible in a run outcome. -/
def runStateTermRaw : RunOutcome → Option Bool
  | .running s _ => some s.termRaw
  | .exited _ s _ => some s.termRaw
  | .crashed => none

/-- The check of line 109: `if ((ret = read(kfd, &buf, sizeof(buf))) < 0)`. -/
def readFails (ret : Int) : Prop := ret < 0

instance (ret : Int) : Decidable (readFails ret) := by
  unfold readFails
  infer_instance

/-- The index of the access `buf[ret-1]` at line 115. -/
def lastIndex (ret : Int) : Int := ret - 1

/-- `sizeof(buf)` for `char buf[1024]` (line 72). -/
def bufSize : Int := 1024

/-- The index `i` is within the bounds of `buf`. -/
def indexInBounds (i : Int) : Prop := 0 ≤ i ∧ i < bufSize

instance (i : Int) : Decidable (indexInBounds i) := by
  unfold indexInBounds
  infer_instance

/-- Does an output publish a transform whose child frame is `name`? -/
def outChildIs (name : String) : Output → Bool
  | .transform t => t.child_frame_id == name
  | .message _ => false

lemma countKey_cons_self (k : String) (v : TimerRec)
    (rest : List (String × TimerRec)) :
    countKey ((k, v) :: rest) k = countKey rest k + 1 := by
  simp [countKey, List.countP_cons]

lemma countKey_cons_ne {k' k : String} (hk : k' ≠ k) (v : TimerRec)
    (rest : List (String × TimerRec)) :
    countKey ((k', v) :: rest) k = countKey rest k := by
  simp [countKey, List.countP_cons, hk]

lemma mapLookup_mapInsert (m : List (String × TimerRec)) (k : String)
    (v : TimerRec) : mapLookup (mapInsert m k v) k = some v := by
  induction m with
  | nil => simp [mapInsert, mapLookup]
  | cons p rest ih =>
    obtain ⟨k', v'⟩ := p
    by_cases hk : k' = k <;> simp [mapInsert, mapLookup, hk, ih]

lemma countKey_mapInsert (m : List (String × TimerRec)) (k : String)
    (v : TimerRec) (h : countKey m k ≤ 1) :
    countKey (mapInsert m k v) k = 1 := by
  induction m with
  | nil => simp [mapInsert, countKey]
  | cons p rest ih =>
    obtain ⟨k', v'⟩ := p
    by_cases hk : k' = k
    · subst hk
      rw [countKey_cons_self] at h
      have hm : mapInsert ((k', v') :: rest) k' v = (k', v) :: rest := by
        simp [mapInsert]
      rw [hm, countKey_cons_self]
      omega
    · simp only [mapInsert, if_neg hk]
      rw [countKey_cons_ne hk] at h
      rw [countKey_cons_ne hk]
      exact ih h

lemma countKey_createTimer_twice (s : CtrlState) (t1 t2 : Time)
    (name : String) (sp1 sp2 : ℝ) (h : countKey s.timers name ≤ 1) :
    countKey (createTimer (createTimer s t1 name sp1) t2 name sp2).timers
      name = 1 := by
  unfold createTimer
  exact countKey_mapInsert _ _ _ (le_of_eq (countKey_mapInsert _ _ _ h))

lemma countP_spinOnce (ts : List (String × TimerRec)) (now : Time)
    (name : String) :
    (spinOnce ts now).countP (outChildIs name) = countKey ts name := by
  unfold spinOnce countKey
  rw [List.countP_map]
  rfl

lemma loopIter_continues_state {s : CtrlState} {now : Time} {ev : LoopEvent}
    {s' : CtrlState} {out : List Output}
    (h : loopIter s now ev = .continues s' out) : s' = s := by
  cases ev with
  | shutdown => simp [loopIter] at h
  | noInput =>
    simp [loopIter] at h
    exact h.1.symm
  | readError => simp [loopIter] at h
  | input bs =>
    cases hbs : bs.getLast? with
    | none => simp [loopIter, hbs] at h
    | some c =>
      simp [loopIter, hbs] at h
      exact h.1.symm

lemma loopIter_exits_state {s : CtrlState} {now : Time} {ev : LoopEvent}
    {st : ExitStatus} {s' : CtrlState} {out : List Output}
    (h : loopIter s now ev = .exits st s' out) : s'.timers = s.timers := by
  cases ev with
  | shutdown =>
    simp [loopIter] at h
    rw [← h.2.1]
  | noInput => simp [loopIter] at h
  | readError =>
    simp [loopIter] at h
    rw [← h.2.1]
  | input bs => cases hbs : bs.getLast? <;> simp [loopIter, hbs] at h

lemma runLoop_cons_continues {s : CtrlState} {now : Time} {ev : LoopEvent}
    {s1 : CtrlState} {out1 : List Output} (rest : List (Time × LoopEvent))
    (hev : loopIter s now ev = .continues s1 out1) :
    runLoop s ((now, ev) :: rest) =
      match runLoop s1 rest with
      | .running s2 out2 => .running s2 (out1 ++ out2)
      | .exited st s2 out2 => .exited st s2 (out1 ++ out2)
      | .crashed => .crashed := by
  rw [runLoop, hev]

lemma runLoop_cons_exits {s : CtrlState} {now : Time} {ev : LoopEvent}
    {st : ExitStatus} {s1 : CtrlState} {out1 : List Output}
    (rest : List (Time × LoopEvent))
    (hev : loopIter s now ev = .exits st s1 out1) :
    runLoop s ((now, ev) :: rest) = .exited st s1 out1 := by
  rw [runLoop, hev]

lemma runLoop_cons_stuck {s : CtrlState} {now : Time} {ev : LoopEvent}
    (rest : List (Time × LoopEvent))
    (hev : loopIter s now ev = .stuck) :
    runLoop s ((now, ev) :: rest) = .crashed := by
  rw [runLoop, hev]

lemma runLoop_timers {evs : List (Time × LoopEvent)} :
    ∀ {s : CtrlState} {ts : List (String × TimerRec)},
      runStateTimers (runLoop s evs) = some ts → ts = s.timers := by
  induction evs with
  | nil =>
    intro s ts h
    simp [runLoop, runStateTimers] at h
    exact h.symm
  | cons e rest ih =>
    intro s ts h
    obtain ⟨now, ev⟩ := e
    cases hev : loopIter s now ev with
    | continues s1 out1 =>
      rw [runLoop_cons_continues rest hev] at h
      cases hrun : runLoop s1 rest with
      | running s2 out2 =>
        rw [hrun] at h
        simp [runStateTimers] at h
        have h2 : runStateTimers (runLoop s1 rest) = some s2.timers := by
          rw [hrun]
          rfl
        rw [← h, ih h2, loopIter_continues_state hev]
      | exited st2 s2 out2 =>
        rw [hrun] at h
        simp [runStateTimers] at h
        have h2 : runStateTimers (runLoop s1 rest) = some s2.timers := by
          rw [hrun]
          rfl
        rw [← h, ih h2, loopIter_continues_state hev]
      | crashed =>
        rw [hrun] at h
        simp [runStateTimers] at h
    | exits st1 s1 out1 =>
      rw [runLoop_cons_exits rest hev] at h
      simp [runStateTimers] at h
      rw [← h]
      exact loopIter_exits_state hev
    | stuck =>
      rw [runLoop_cons_stuck rest hev] at h
      simp [runStateTimers] at h

lemma loopIter_exits_cases {s : CtrlState} {now : Time} {ev : LoopEvent}
    {st : ExitStatus} {s' : CtrlState} {out : List Output}
    (h : loopIter s now ev = .exits st s' out) :
    (ev = .readError ∧ st = .failure ∧ s' = s ∧ out = [])
    ∨ (ev = .shutdown ∧ st = .success
        ∧ s' = { s with termRaw := false } ∧ out = []) := by
  cases ev with
  | shutdown =>
    right
    simp [loopIter] at h
    exact ⟨rfl, h.1.symm, h.2.1.symm, h.2.2⟩
  | noInput => simp [loopIter] at h
  | readError =>
    left
    simp [loopIter] at h
    exact ⟨rfl, h.1.symm, h.2.1.symm, h.2.2⟩
  | input bs => cases hbs : bs.getLast? <;> simp [loopIter, hbs] at h

/-- Claim C1: a registration captures `phase_origin` once; every firing afterwards
publishes `x = cos t`, `y = sin t` with `t = phase_origin + speed * now`
(phase-accumulator form), and no loop execution ever rewrites the stored
`phase_origin`. -/
theorem C1_phase_accumulator (s : CtrlState) (t0 : Time) (name : String)
    (speed : ℝ) (now : Time) (evs : List (Time × LoopEvent))
    (ts : List (String × TimerRec))
    (h : runStateTimers (runLoop (createTimer s t0 name speed) evs) = some ts) :
    mapLookup ts name = some ⟨timerPeriod, t0, speed⟩
    ∧ (sendPositonCallback name t0 speed now).translation =
        ⟨Real.cos (t0 + speed * now), Real.sin (t0 + speed * now), 0⟩ := by
  constructor
  · rw [runLoop_timers h]
    exact mapLookup_mapInsert _ _ _
  · rfl

/-- Witness for C1 at a concrete registration and firing. -/
theorem C1_phase_accumulator_witness :
    mapLookup (createTimer initState 2 "bear_doll" (1/2)).timers "bear_doll" =
        some ⟨timerPeriod, 2, 1/2⟩
    ∧ (sendPositonCallback "bear_doll" 2 (1/2) 3).translation =
        ⟨Real.cos (2 + (1/2) * 3), Real.sin (2 + (1/2) * 3), 0⟩ :=
  C1_phase_accumulator initState 2 "bear_doll" (1/2) 3 []
    (createTimer initState 2 "bear_doll" (1/2)).timers rfl

/-- Claim C2: registering a second schedule for a name replaces the first; one
entry remains and one transform is published for that name per tick. -/
theorem C2_replace_semantics (s : CtrlState) (t1 t2 now : Time)
    (name : String) (sp1 sp2 : ℝ) (h : countKey s.timers name ≤ 1) :
    countKey (createTimer (createTimer s t1 name sp1) t2 name sp2).timers
        name = 1
    ∧ ((spinOnce (createTimer (createTimer s t1 name sp1) t2 name sp2).timers
        now).countP (outChildIs name)) = 1 := by
  have hc := countKey_createTimer_twice s t1 t2 name sp1 sp2 h
  refine ⟨hc, ?_⟩
  rw [countP_spinOnce]
  exact hc

/-- Witness for C2 at a concrete double registration. -/
theorem C2_replace_semantics_witness :
    countKey (createTimer (createTimer initState 1 "bear_doll" 0.5) 2
        "bear_doll" 0.5).timers "bear_doll" = 1
    ∧ ((spinOnce (createTimer (createTimer initState 1 "bear_doll" 0.5) 2
        "bear_doll" 0.5).timers 3).countP (outChildIs "bear_doll")) = 1 :=
  C2_replace_semantics initState 1 2 3 "bear_doll" 0.5 0.5 (by decide)

/-- Claim C3: the dispatch table of the switch statement. -/
theorem C3_dispatch_table :
    dispatch '1' = [Output.transform (sendPositon "table" 0.0 0.0)]
    ∧ dispatch '2' = [Output.transform (sendPositon "table" 0.5 0.0)]
    ∧ dispatch '3' = [Output.transform (sendPositon "table" 0.0 0.5)]
    ∧ dispatch 'g' = [Output.message "grasped,bear_doll"]
    ∧ dispatch 'h' = [Output.message "grasped,dog_doll"]
    ∧ dispatch 'i' = [Output.message "grasped,rabbit_doll"]
    ∧ dispatch 'r' = [Output.message "released"]
    ∧ dispatch 'x' = []
    ∧ (∀ (s : CtrlState) (now : Time),
        loopIter s now (.input ['x']) = .continues s (spinOnce s.timers now)) :=
  ⟨rfl, rfl, rfl, rfl, rfl, rfl, rfl, rfl, fun _ _ => rfl⟩

/-- Claim C4, counterexample: the transform published by a timer firing does
not carry the heading `t` as a rotation about the vertical axis — its
rotation field is `none` (line 262 of the source is commented out). -/
theorem C4_heading_counterexample :
    (sendPositonCallback "bear_doll" 0 0.5 1).rotation ≠
      some (createQuaternionFromRPY 0 0 (posVal 0 0.5 1)) := by
  simp [sendPositonCallback]

/-- Claim C4, amended: every pose published by a timer firing has its
rotation field unset, and the internal heading value
`t = phase_origin + angular_speed * now` is strictly increasing over
successive firings for positive angular speed. -/
theorem C4_heading_amended (name : String) (t0 : Time) (speed : ℝ)
    (now n1 n2 : Time) (hs : 0 < speed) (hn : n1 < n2) :
    (sendPositonCallback name t0 speed now).rotation = none
    ∧ posVal t0 speed n1 < posVal t0 speed n2 := by
  refine ⟨rfl, ?_⟩
  unfold posVal
  have := mul_lt_mul_of_pos_left hn hs
  linarith

/-- Witness for the amended C4 at concrete times. -/
theorem C4_heading_amended_witness :
    (sendPositonCallback "bear_doll" 0 1 5).rotation = none
    ∧ posVal 0 1 0 < posVal 0 1 1 :=
  C4_heading_amended "bear_doll" 0 1 5 0 1 zero_lt_one zero_lt_one

/-- Claim C5: when input is available, only the last byte of the bytes read
in that polling cycle is passed to the dispatcher; the earlier bytes of the
same read have no effect on the outputs or the state. -/
theorem C5_last_byte_only (s : CtrlState) (now : Time) (pre : List Char)
    (c : Char) :
    loopIter s now (.input (pre ++ [c])) =
      .continues s (dispatch c ++ spinOnce s.timers now) := by
  simp [loopIter, List.getLast?_concat]

/-- Claim C6, counterexample: the fatal input-stream-failure path
(`exit(EXIT_FAILURE)` at line 112) terminates the process while the
terminal is still in raw mode, so the terminal change is not released on
every exit path. -/
theorem C6_release_counterexample :
    runLoop bootState [((0 : ℝ), .readError)] = .exited .failure bootState []
    ∧ bootState.termRaw = true :=
  ⟨rfl, rfl⟩

/-- Claim C6, amended: the signal-triggered shutdown path restores the
cooked terminal mode and terminates with success status; the fatal
read-failure path terminates with failure status and leaves the terminal
mode as it was. -/
theorem C6_release_amended (evs : List (Time × LoopEvent)) :
    ∀ {s s' : CtrlState} {st : ExitStatus} {out : List Output},
      runLoop s evs = .exited st s' out →
        (st = .success → s'.termRaw = false)
        ∧ (st = .failure → s'.termRaw = s.termRaw) := by
  induction evs with
  | nil =>
    intro s s' st out h
    simp [runLoop] at h
  | cons e rest ih =>
    intro s s' st out h
    obtain ⟨now, ev⟩ := e
    cases hev : loopIter s now ev with
    | continues s1 out1 =>
      rw [runLoop_cons_continues rest hev] at h
      cases hrun : runLoop s1 rest with
      | running s2 out2 => rw [hrun] at h; simp at h
      | exited st2 s2 out2 =>
        rw [hrun] at h
        simp only [RunOutcome.exited.injEq] at h
        obtain ⟨h1, h2, h3⟩ := h
        subst h1
        subst h2
        rw [← loopIter_continues_state hev]
        exact ih hrun
      | crashed => rw [hrun] at h; simp at h
    | exits st1 s1 out1 =>
      rw [runLoop_cons_exits rest hev] at h
      simp only [RunOutcome.exited.injEq] at h
      obtain ⟨h1, h2, h3⟩ := h
      subst h1
      subst h2
      rcases loopIter_exits_cases hev with ⟨_, hst, hs1, _⟩ | ⟨_, hst, hs1, _⟩
      · subst hst
        subst hs1
        exact ⟨fun hc => absurd hc (by decide), fun _ => rfl⟩
      · subst hst
        subst hs1
        exact ⟨fun _ => rfl, fun hc => absurd hc (by decide)⟩
    | stuck =>
      rw [runLoop_cons_stuck rest hev] at h
      simp at h

/-- Witness for the amended C6 on a concrete shutdown run. -/
theorem C6_release_amended_witness :
    (ExitStatus.success = ExitStatus.success →
      ({ bootState with termRaw := false } : CtrlState).termRaw = false)
    ∧ (ExitStatus.success = ExitStatus.failure →
      ({ bootState with termRaw := false } : CtrlState).termRaw =
        bootState.termRaw) :=
  C6_release_amended [((0 : ℝ), .shutdown)] rfl

/-- Claim C7: every position produced by the motion generator lies exactly
on the unit circle, for every phase origin, angular speed and time; with
angular speed 0 the point is fixed, determined solely by the phase origin. -/
theorem C7_unit_circle (name : String) (t0 : Time) (speed : ℝ)
    (now now' : Time) :
    (sendPositonCallback name t0 speed now).translation.x ^ 2
        + (sendPositonCallback name t0 speed now).translation.y ^ 2 = 1
    ∧ (sendPositonCallback name t0 0 now).translation =
        (sendPositonCallback name t0 0 now').translation := by
  constructor
  · exact Real.cos_sq_add_sin_sq _
  · simp [sendPositonCallback, posVal]

/-- Claim C8: dispatching byte 2 publishes exactly one pose for "table" at
(0.5, 0.0, 0) with no orientation override, leaves the timer registry
unchanged, and "table" is never placed under a recurring schedule. -/
theorem C8_table_move :
    dispatch '2' = [Output.transform ⟨"map", "table", ⟨0.5, 0.0, 0⟩, none⟩]
    ∧ (∀ (s : CtrlState) (now : Time),
        loopIter s now (.input ['2']) =
          .continues s
            (Output.transform ⟨"map", "table", ⟨0.5, 0.0, 0⟩, none⟩
              :: spinOnce s.timers now))
    ∧ mapLookup bootState.timers "table" = none
    ∧ (∀ (evs : List (Time × LoopEvent)) (ts : List (String × TimerRec)),
        runStateTimers (runLoop bootState evs) = some ts →
          mapLookup ts "table" = none) := by
  refine ⟨rfl, fun s now => rfl, rfl, fun evs ts h => ?_⟩
  rw [runLoop_timers h]
  rfl

/-- Witness for C8 on the empty schedule. -/
theorem C8_table_move_witness : mapLookup bootState.timers "table" = none :=
  C8_table_move.2.2.2 [] bootState.timers rfl

/-- Claim C9: a negative read result terminates the process immediately with
failure status — no outputs, no state change, and the rest of the schedule
is never executed; the only other way the loop ends is the shutdown signal,
which exits with success. -/
theorem C9_read_failure_fatal :
    (∀ (s : CtrlState) (now : Time) (rest : List (Time × LoopEvent)),
        runLoop s ((now, .readError) :: rest) = .exited .failure s [])
    ∧ (∀ (s : CtrlState) (now : Time) (ev : LoopEvent) (st : ExitStatus)
        (s' : CtrlState) (out : List Output),
        loopIter s now ev = .exits st s' out →
          (ev = .readError ∧ st = .failure ∧ s' = s ∧ out = [])
          ∨ (ev = .shutdown ∧ st = .success)) := by
  constructor
  · intro s now rest
    exact runLoop_cons_exits rest rfl
  · intro s now ev st s' out h
    rcases loopIter_exits_cases h with ⟨h1, h2, h3, h4⟩ | ⟨h1, h2, _, _⟩
    · exact Or.inl ⟨h1, h2, h3, h4⟩
    · exact Or.inr ⟨h1, h2⟩

/-- Witness for C9 at a concrete failing read. -/
theorem C9_read_failure_fatal_witness :
    runLoop initState [((0 : ℝ), .readError)] = .exited .failure initState []
    ∧ ((LoopEvent.readError = .readError ∧ ExitStatus.failure = .failure
          ∧ initState = initState ∧ ([] : List Output) = [])
        ∨ (LoopEvent.readError = .shutdown ∧ ExitStatus.failure = .success)) :=
  ⟨C9_read_failure_fatal.1 initState 0 [],
   C9_read_failure_fatal.2 initState 0 .readError .failure initState [] rfl⟩

/-- Claim C10: the negative-result check of line 109 does not reject a read
that returned 0 bytes, and on that path the access `buf[ret-1]` has index
-1, which is out of the bounds of the 1024-byte buffer (the machine model
reaches undefined behaviour); for 1 <= ret <= 1024 the index is in
bounds. -/
theorem C10_read_zero_bug :
    ¬ readFails 0
    ∧ lastIndex 0 = -1
    ∧ ¬ indexInBounds (lastIndex 0)
    ∧ (∀ ret : Int, 1 ≤ ret → ret ≤ bufSize → indexInBounds (lastIndex ret))
    ∧ loopIter initState 0 (.input []) = .stuck := by
  refine ⟨by decide, rfl, by decide, fun ret h1 h2 => ?_, rfl⟩
  unfold indexInBounds lastIndex bufSize at *
  omega

/-- Witness for C10 at concrete read results. -/
theorem C10_read_zero_bug_witness :
    indexInBounds (lastIndex 1) ∧ indexInBounds (lastIndex 1024) :=
  ⟨C10_read_zero_bug.2.2.2.1 1 (by decide) (by decide),
   C10_read_zero_bug.2.2.2.1 1024 (by decide) (by decide)⟩
